import Mathlib

/-!
Verification development for the llama-chat-sdk repository (src/run.py).

The development shallowly embeds the Python module `run.py`:

* `JValue` and `json_loads` model Python `json.loads` restricted to what the
  SDK observes (parse success / failure and the shape of the parsed value).
  Numbers are kept as their lexemes, since the SDK never inspects numeric
  values.  A lone `\uXXXX` surrogate escape, which Python can keep in a `str`
  but which is not a Unicode scalar value, is mapped to U+FFFD; no claim
  observes string contents produced from surrogate escapes.
* `PyError` models a raised Python exception; `Except PyError` models a
  computation that may raise.
* `LlamaChat` and the functions `register_function`, `register_functions`,
  `_parse_function_call`, `_execute_function` and `chat` are translated
  line by line from the class `LlamaChat` in src/run.py.
* The network call `_call_api` depends on the outside world; its outcome is
  passed to `chat` as an `ApiOutcome` value: the content string extracted
  from a well-formed success body, a caught `requests.exceptions.
  RequestException` (transport failure or `raise_for_status`), or an
  uncaught exception while reading a malformed success body.
  The debug-mode file write and console print are external side effects and
  are not modelled.
-/

namespace LlamaChatSdk

/-- A Python value produced by the json module: None, bool, int or float
(kept as the numeric lexeme, including the constants NaN and Infinity),
str, list, or dict with string keys. -/
inductive JValue where
  | null
  | bool (b : Bool)
  | num (lexeme : String)
  | str (s : String)
  | arr (xs : List JValue)
  | obj (kvs : List (String × JValue))

/-- Insertion into a Python dict represented as an ordered association
list: an existing key keeps its position and gets the new value, a new key
is appended at the end. -/
def dictInsert {α : Type} (k : String) (v : α) : List (String × α) → List (String × α)
  | [] => [(k, v)]
  | (k', v') :: rest => if k' = k then (k, v) :: rest else (k', v') :: dictInsert k v rest

/-- JSON whitespace accepted by the json module: space, tab, newline,
carriage return. -/
def isJsonWs (c : Char) : Bool :=
  c = ' ' || c = '\t' || c = '\n' || c = '\r'

def skipWs : List Char → List Char
  | [] => []
  | c :: rest => if isJsonWs c then skipWs rest else c :: rest

/-- Value of a hex digit, if the character is one. -/
def hexVal? (c : Char) : Option Nat :=
  if '0' ≤ c ∧ c ≤ '9' then some (c.toNat - 48)
  else if 'a' ≤ c ∧ c ≤ 'f' then some (c.toNat - 87)
  else if 'A' ≤ c ∧ c ≤ 'F' then some (c.toNat - 55)
  else none

/-- Read exactly four hex digits. -/
def parse4Hex : List Char → Option (Nat × List Char)
  | a :: b :: c :: d :: rest =>
    match hexVal? a, hexVal? b, hexVal? c, hexVal? d with
    | some x, some y, some z, some w => some (x * 4096 + y * 256 + z * 16 + w, rest)
    | _, _, _, _ => none
  | _ => none

/-- A code point as a Char; code points that are not Unicode scalar values
(lone surrogates, which Python strings can hold) are mapped to U+FFFD. -/
def charOfCodepoint (n : Nat) : Char :=
  if n.isValidChar then Char.ofNat n else Char.ofNat 0xFFFD

/-- Single-character escapes accepted after a backslash in a JSON string. -/
def escMap : Char → Option Char
  | '\"' => some '\"'
  | '\\' => some '\\'
  | '/' => some '/'
  | 'b' => some (Char.ofNat 8)
  | 'f' => some (Char.ofNat 12)
  | 'n' => some '\n'
  | 'r' => some '\r'
  | 't' => some '\t'
  | _ => none

/-- Body of a JSON string (after the opening quote), in the strict mode of
the json module: unescaped control characters below U+0020 are rejected,
surrogate pairs written as two escapes are combined. -/
def parseStr : Nat → List Char → List Char → Option (String × List Char)
  | 0, _, _ => none
  | Nat.succ fuel, acc, cs =>
    match cs with
    | [] => none
    | '\"' :: rest => some (String.mk acc.reverse, rest)
    | '\\' :: rest =>
      match rest with
      | [] => none
      | 'u' :: rest2 =>
        match parse4Hex rest2 with
        | none => none
        | some (n, rest3) =>
          if 0xD800 ≤ n ∧ n ≤ 0xDBFF then
            match rest3 with
            | '\\' :: 'u' :: rest4 =>
              match parse4Hex rest4 with
              | some (m, rest5) =>
                if 0xDC00 ≤ m ∧ m ≤ 0xDFFF then
                  parseStr fuel
                    (charOfCodepoint (0x10000 + (n - 0xD800) * 0x400 + (m - 0xDC00)) :: acc)
                    rest5
                else parseStr fuel (charOfCodepoint n :: acc) rest3
              | none => parseStr fuel (charOfCodepoint n :: acc) rest3
            | _ => parseStr fuel (charOfCodepoint n :: acc) rest3
          else parseStr fuel (charOfCodepoint n :: acc) rest3
      | e :: rest2 =>
        match escMap e with
        | some c => parseStr fuel (c :: acc) rest2
        | none => none
    | c :: rest =>
      if c.toNat < 0x20 then none else parseStr fuel (c :: acc) rest

def digitSpan (cs : List Char) : List Char × List Char :=
  cs.span (fun c => c.isDigit)

/-- Optional fractional part: a dot followed by at least one digit;
otherwise nothing is consumed. -/
def parseFrac : List Char → List Char × List Char
  | '.' :: r =>
    match digitSpan r with
    | ([], _) => ([], '.' :: r)
    | (ds, r2) => ('.' :: ds, r2)
  | cs => ([], cs)

/-- Optional exponent part: e or E, optional sign, at least one digit;
otherwise nothing is consumed. -/
def parseExp : List Char → List Char × List Char
  | [] => ([], [])
  | c :: r =>
    if c = 'e' ∨ c = 'E' then
      match r with
      | [] => ([], [c])
      | s :: r2 =>
        if s = '+' ∨ s = '-' then
          match digitSpan r2 with
          | ([], _) => ([], c :: s :: r2)
          | (ds, r3) => (c :: s :: ds, r3)
        else
          match digitSpan r with
          | ([], _) => ([], c :: r)
          | (ds, r3) => (c :: ds, r3)
    else ([], c :: r)

/-- The number lexeme, mirroring the regular expression used by the json
module: an optional minus sign, an integer part that is 0 or starts with a
nonzero digit, then optional fraction and exponent. -/
def parseNumberLexeme (cs : List Char) : Option (List Char × List Char) :=
  let (sign, cs1) :=
    match cs with
    | '-' :: r => (['-'], r)
    | _ => (([] : List Char), cs)
  match cs1 with
  | [] => none
  | c :: r =>
    if c = '0' then
      let (frac, r2) := parseFrac r
      let (ex, r3) := parseExp r2
      some (sign ++ [c] ++ frac ++ ex, r3)
    else if c.isDigit then
      let (ds, r1) := digitSpan r
      let (frac, r2) := parseFrac r1
      let (ex, r3) := parseExp r2
      some (sign ++ (c :: ds) ++ frac ++ ex, r3)
    else none

/-- Consume an expected literal prefix. -/
def dropPre? : List Char → List Char → Option (List Char)
  | [], rest => some rest
  | _ :: _, [] => none
  | p :: ps, c :: rest => if c = p then dropPre? ps rest else none

/-- The keyword literals the json module accepts at value position,
including the non-standard constants it accepts by default. -/
def litTable : List (List Char × JValue) :=
  [ (['n', 'u', 'l', 'l'], JValue.null),
    (['t', 'r', 'u', 'e'], JValue.bool true),
    (['f', 'a', 'l', 's', 'e'], JValue.bool false),
    (['N', 'a', 'N'], JValue.num "NaN"),
    (['I', 'n', 'f', 'i', 'n', 'i', 't', 'y'], JValue.num "Infinity"),
    (['-', 'I', 'n', 'f', 'i', 'n', 'i', 't', 'y'], JValue.num "-Infinity") ]

def tryLiterals : List (List Char × JValue) → List Char → Option (JValue × List Char)
  | [], _ => none
  | (pat, v) :: rest, cs =>
    match dropPre? pat cs with
    | some r => some (v, r)
    | none => tryLiterals rest cs

mutual

/-- A JSON value at the current position (no leading whitespace).  The fuel
argument only serves termination; json_loads supplies enough for any input. -/
def parseValue : Nat → List Char → Option (JValue × List Char)
  | 0, _ => none
  | Nat.succ fuel, cs =>
    match cs with
    | [] => none
    | c :: rest =>
      if c = '\"' then
        match parseStr fuel [] rest with
        | some (s, r) => some (JValue.str s, r)
        | none => none
      else if c.toNat = 123 then -- opening brace: object
        match skipWs rest with
        | c2 :: r2 =>
          if c2.toNat = 125 then -- closing brace: empty object
            some (JValue.obj [], r2)
          else
            match parseMembers fuel (c2 :: r2) [] with
            | some (kvs, r3) => some (JValue.obj kvs, r3)
            | none => none
        | [] => none
      else if c = '[' then
        match skipWs rest with
        | ']' :: r2 => some (JValue.arr [], r2)
        | r2 =>
          match parseItems fuel r2 [] with
          | some (xs, r3) => some (JValue.arr xs, r3)
          | none => none
      else
        match tryLiterals litTable cs with
        | some res => some res
        | none =>
          match parseNumberLexeme cs with
          | some (lex, r) => some (JValue.num (String.mk lex), r)
          | none => none

/-- Members of a JSON object after the opening brace (position at a key;
the empty object was handled by the caller).  Duplicate keys collapse the
way successive dict assignment does in Python: last value wins, first
position wins. -/
def parseMembers : Nat → List Char → List (String × JValue) →
    Option (List (String × JValue) × List Char)
  | 0, _, _ => none
  | Nat.succ fuel, cs, acc =>
    match cs with
    | '\"' :: rest =>
      match parseStr fuel [] rest with
      | none => none
      | some (key, r1) =>
        match skipWs r1 with
        | ':' :: r3 =>
          match parseValue fuel (skipWs r3) with
          | none => none
          | some (v, r4) =>
            let acc2 := dictInsert key v acc
            match skipWs r4 with
            | ',' :: r6 => parseMembers fuel (skipWs r6) acc2
            | c5 :: r6 =>
              if c5.toNat = 125 then -- closing brace
                some (acc2, r6)
              else none
            | [] => none
        | _ => none
    | _ => none

/-- Items of a JSON array after the opening bracket (position at a value;
the empty array was handled by the caller). -/
def parseItems : Nat → List Char → List JValue → Option (List JValue × List Char)
  | 0, _, _ => none
  | Nat.succ fuel, cs, acc =>
    match parseValue fuel cs with
    | none => none
    | some (v, r1) =>
      match skipWs r1 with
      | ',' :: r3 => parseItems fuel (skipWs r3) (acc ++ [v])
      | ']' :: r3 => some (acc ++ [v], r3)
      | _ => none

end

/-- Python json.loads: skip leading whitespace, read one value, require
only whitespace after it.  Returns none where Python raises
JSONDecodeError. -/
def json_loads (s : String) : Option JValue :=
  match parseValue (2 * s.length + 2) (skipWs s.toList) with
  | some (v, rest) => if (skipWs rest).isEmpty then some v else none
  | none => none

/-- A raised Python exception.  typeError and keyError are raised by the
interpreter (their runtime-generated message text is not modelled);
exception covers anything a registered handler raises. -/
inductive PyError where
  | typeError
  | keyError
  | exception (msg : String)
deriving DecidableEq

/-- Python substring membership, pat in hay, for str operands. -/
def pySubstr (pat hay : String) : Bool :=
  (List.range (hay.toList.length + 1)).any
    (fun i => List.isPrefixOf pat.toList (hay.toList.drop i))

/-- The Python expression key in v for a json-produced value v: key lookup
on a dict, substring test on a str, element membership on a list (the str
key only equals str elements), and TypeError on the non-iterable values
None, bool and numbers. -/
def pyContains (key : String) (v : JValue) : Except PyError Bool :=
  match v with
  | JValue.obj kvs => Except.ok (kvs.any (fun p => p.1 == key))
  | JValue.str s => Except.ok (pySubstr key s)
  | JValue.arr xs =>
    Except.ok (xs.any (fun x => match x with | JValue.str t => t == key | _ => false))
  | _ => Except.error PyError.typeError

/-- The Python expression v[key] with a str key: lookup on a dict,
TypeError on every other json-produced value (str and list require integer
indices, the rest are not subscriptable). -/
def pySubscript (v : JValue) (key : String) : Except PyError JValue :=
  match v with
  | JValue.obj kvs =>
    match kvs.find? (fun p => p.1 == key) with
    | some p => Except.ok p.2
    | none => Except.error PyError.keyError
  | _ => Except.error PyError.typeError

/-- A message dict: role is one of system, user, assistant. -/
structure Message where
  role : String
  content : String
deriving DecidableEq

/-- A registered Python callable: its dunder name, its positional
parameter names (co_varnames up to co_argcount), and its behaviour when
called with the keyword arguments produced by a json object.  The
behaviour includes the TypeErrors the interpreter itself raises for
keywords that do not match the signature, and anything the body raises. -/
structure PyCallable where
  name : String
  argNames : List String
  impl : List (String × JValue) → Except PyError String

/-- The class Function of src/run.py. -/
structure Function where
  name : String
  func : PyCallable
  description : String
  parameters : List String

/-- The Function constructor: parameters are introspected from the
callable. -/
def Function.make (name : String) (func : PyCallable) (description : String) : Function :=
  { name := name, func := func, description := description, parameters := func.argNames }

/-- The class LlamaChat of src/run.py: credential, model identifier,
debug flag, function registry (a Python dict, modelled as an ordered
association list), and message history.  The constant api_url is not a
field the claims mention and is omitted. -/
structure LlamaChat where
  api_key : String
  model : String
  debug : Bool
  functions : List (String × Function)
  messages : List Message

def preamble : String := "You are a helpful assistant."

def catalogHeader : String := " You have access to the following functions:\n\n"

def formatInstruction : String :=
  "\nWhen you need to use a function, output a JSON object in the following format:\n\n\x7b\n  \"function\": \"function_name\",\n  \"arguments\": \x7b\n    \"arg1\": \"value1\",\n    \"arg2\": \"value2\"\n  \x7d\n\x7d\n"

/-- Python str of a tuple of identifier strings, as interpolated by the
f-string in _initialize_system_message; identifiers never contain quotes,
so each element is rendered between single quotes, with the trailing comma
of a one-element tuple. -/
def tupleRepr : List String → String
  | [] => "()"
  | [p] => "(\x27" ++ p ++ "\x27,)"
  | ps => "(" ++ String.intercalate ", " (ps.map (fun p => "\x27" ++ p ++ "\x27")) ++ ")"

/-- One catalog line of the system message:
idx. name(parameters): description, then a newline. -/
def entryLine (idx : Nat) (name : String) (f : Function) : String :=
  toString idx ++ ". " ++ name ++ tupleRepr f.parameters ++ ": " ++ f.description ++ "\n"

/-- The for loop of _initialize_system_message: appends one catalog line
per registry entry to the accumulated content, counting from idx. -/
def catalogLoop : Nat → List (String × Function) → String → String
  | _, [], acc => acc
  | idx, (name, f) :: rest, acc => catalogLoop (idx + 1) rest (acc ++ entryLine idx name f)

/-- The system message content built by _initialize_system_message: the
fixed preamble alone when the registry is empty, otherwise preamble,
catalog header, one enumerated line per registered function starting at 1,
and the fixed JSON format instruction. -/
def systemContent (functions : List (String × Function)) : String :=
  if functions.isEmpty then preamble
  else preamble ++ catalogHeader ++ catalogLoop 1 functions "" ++ formatInstruction

/-- The method _initialize_system_message: overwrites self.messages with
the single freshly built system message. -/
def regenSystemMessage (st : LlamaChat) : LlamaChat :=
  { st with messages := [Message.mk "system" (systemContent st.functions)] }

/-- The LlamaChat constructor (with the model already resolved to its
string value): empty registry, then the system message is initialized. -/
def mkSession (api_key : String) (model : String) (debug : Bool) : LlamaChat :=
  regenSystemMessage
    { api_key := api_key, model := model, debug := debug, functions := [], messages := [] }

/-- The method register_function: builds a Function from the callable and
its dunder name, stores it in the registry under that name (dict
assignment: an existing entry is replaced in place), and regenerates the
system message. -/
def register_function (func : PyCallable) (description : String) (st : LlamaChat) : LlamaChat :=
  regenSystemMessage
    { st with functions := dictInsert func.name (Function.make func.name func description) st.functions }

/-- The method register_functions: registers each pair in order (in the
source each entry is a dict with keys function and description; entries
are modelled as pairs). -/
def register_functions : List (PyCallable × String) → LlamaChat → LlamaChat
  | [], st => st
  | (f, d) :: rest, st => register_functions rest (register_function f d st)

/-- What the outside world does to the POST issued by _call_api: a 2xx
response whose body has the expected choices[0].message.content shape, a
requests.exceptions.RequestException (transport failure or a non-2xx
status raised by raise_for_status), or an exception raised while decoding
a malformed success body (not a RequestException, hence uncaught). -/
inductive ApiOutcome where
  | success (content : String)
  | requestError
  | malformedBody (e : PyError)

/-- The method _call_api: returns the extracted content on success and
None when a RequestException was caught (the debug print is an external
side effect); a malformed success body raises. -/
def _call_api (outcome : ApiOutcome) : Except PyError (Option String) :=
  match outcome with
  | ApiOutcome.success c => Except.ok (some c)
  | ApiOutcome.requestError => Except.ok none
  | ApiOutcome.malformedBody e => Except.error e

/-- The method _parse_function_call.  Only JSONDecodeError is caught, so a
parse failure yields None; on a parsed value the membership tests for
function and then arguments run under Python dynamic typing and may raise
TypeError; only when both succeed and hold is the parsed value returned. -/
def _parse_function_call (response_text : String) : Except PyError (Option JValue) :=
  match json_loads response_text with
  | none => Except.ok none
  | some v =>
    match pyContains "function" v with
    | Except.error e => Except.error e
    | Except.ok false => Except.ok none
    | Except.ok true =>
      match pyContains "arguments" v with
      | Except.error e => Except.error e
      | Except.ok false => Except.ok none
      | Except.ok true => Except.ok (some v)

/-- The method _execute_function: subscript the parsed value at function
and at arguments (TypeError when the value is not a dict), test membership
of the function value in the registry (dict membership: a str key is
looked up, other hashable values match no str key, an unhashable dict or
list key raises TypeError), and on a hit call the handler with the
arguments expanded as keyword arguments (TypeError when arguments is not
a mapping); on a miss return the fixed error string.  No validation
against the recorded parameter names happens here; mismatching keywords
surface as whatever the call itself raises, inside the callable model. -/
def _execute_function (functions : List (String × Function)) (function_call : JValue) :
    Except PyError String :=
  match pySubscript function_call "function" with
  | Except.error e => Except.error e
  | Except.ok function_name =>
    match pySubscript function_call "arguments" with
    | Except.error e => Except.error e
    | Except.ok arguments =>
      match
        (match function_name with
         | JValue.str s => Except.ok (functions.any (fun p => p.1 == s))
         | JValue.obj _ => Except.error PyError.typeError
         | JValue.arr _ => Except.error PyError.typeError
         | _ => Except.ok false : Except PyError Bool) with
      | Except.error e => Except.error e
      | Except.ok b =>
        if b then
          match function_name, arguments with
          | JValue.str s, JValue.obj kvs =>
            match functions.find? (fun p => p.1 == s) with
            | some p => p.2.func.impl kvs
            | none => Except.error PyError.keyError
          | _, _ => Except.error PyError.typeError
        else Except.ok "Error: Function not recognized."

/-- The result of one chat call: a normal return together with the session
state as mutated, or an uncaught exception together with the session state
as mutated up to the raise. -/
inductive ChatResult where
  | ok (st : LlamaChat) (ret : String)
  | exn (st : LlamaChat) (e : PyError)

/-- The session state a chat call leaves behind, whichever way it ended. -/
def ChatResult.stateOf : ChatResult → LlamaChat
  | ChatResult.ok st _ => st
  | ChatResult.exn st _ => st

/-- The method chat: append the user message; on a caught api failure pop
it and return the apology; on success parse the response (an exception
propagates), dispatch a detected function call (an exception propagates),
and append and return the function result, or append and return the raw
response text when no function call was detected.  The parsed value is
never falsy when returned, so the if function_call test of the source is
the match on some.  The api outcome is the environment of the call. -/
def chat (outcome : ApiOutcome) (message : String) (st : LlamaChat) : ChatResult :=
  let st1 : LlamaChat := { st with messages := st.messages ++ [Message.mk "user" message] }
  match _call_api outcome with
  | Except.error e => ChatResult.exn st1 e
  | Except.ok none =>
    ChatResult.ok { st1 with messages := st1.messages.dropLast }
      "Sorry, I encountered an error. Please try again."
  | Except.ok (some assistant_response) =>
    match _parse_function_call assistant_response with
    | Except.error e => ChatResult.exn st1 e
    | Except.ok (some function_call) =>
      match _execute_function st1.functions function_call with
      | Except.error e => ChatResult.exn st1 e
      | Except.ok function_result =>
        ChatResult.ok
          { st1 with messages := st1.messages ++ [Message.mk "assistant" function_result] }
          function_result
    | Except.ok none =>
      ChatResult.ok
        { st1 with messages := st1.messages ++ [Message.mk "assistant" assistant_response] }
        assistant_response

/-! Auxiliary definitions used by the theorems. -/

/-- The keys of the registry, in dict order. -/
def keysOf (fs : List (String × Function)) : List String := fs.map Prod.fst

/-- One catalog line per registry entry, in registry order, with 1-based
indices: the shape the specification ascribes to the catalog. -/
def specCatalog : Nat → List (String × Function) → String
  | _, [] => ""
  | idx, (name, f) :: rest => entryLine idx name f ++ specCatalog (idx + 1) rest

/-- A sequence of register calls applied in order. -/
def applyRegisters (calls : List (PyCallable × String)) (st : LlamaChat) : LlamaChat :=
  calls.foldl (fun s p => register_function p.1 p.2 s) st

/-- Modelled from the spec: registerBatch applies register to each
handler/description pair in the given order. -/
def registerBatch_spec (entries : List (PyCallable × String)) (st : LlamaChat) : LlamaChat :=
  entries.foldl (fun s p => register_function p.1 p.2 s) st

/-- A handler for the witnesses: takes exactly the keyword city and
returns a string; any other keyword set is a TypeError from the call. -/
def get_weather : PyCallable :=
  { name := "get_weather", argNames := ["city"],
    impl := fun kwargs =>
      match kwargs with
      | [("city", JValue.str city)] => Except.ok ("Weather in " ++ city)
      | _ => Except.error PyError.typeError }

/-- A handler that always raises, for the handler-failure witness. -/
def boom : PyCallable :=
  { name := "boom", argNames := [],
    impl := fun _ => Except.error (PyError.exception "boom") }

/-- A session that already holds two conversation turns after the system
message. -/
def stEx : LlamaChat :=
  { api_key := "k", model := "m", debug := false, functions := [],
    messages := [Message.mk "system" preamble, Message.mk "user" "hi",
                 Message.mk "assistant" "hello"] }

/-- A model reply invoking get_weather on Paris. -/
def parisCall : String :=
  "\x7b\"function\": \"get_weather\", \"arguments\": \x7b\"city\": \"Paris\"\x7d\x7d"

/-- A model reply invoking the always-raising handler. -/
def boomCall : String :=
  "\x7b\"function\": \"boom\", \"arguments\": \x7b\x7d\x7d"

/-! Helper lemmas. -/

theorem any_of_find {α : Type} (l : List α) (p : α → Bool) (a : α)
    (h : l.find? p = some a) : l.any p = true := by
  have hm := List.mem_of_find?_eq_some h
  have hp := List.find?_some h
  exact List.any_eq_true.mpr ⟨a, hm, hp⟩

theorem catalogLoop_eq (fs : List (String × Function)) :
    ∀ (idx : Nat) (acc : String), catalogLoop idx fs acc = acc ++ specCatalog idx fs := by
  induction fs with
  | nil => intro idx acc; simp [catalogLoop, specCatalog]
  | cons e rest ih =>
    intro idx acc
    obtain ⟨name, f⟩ := e
    simp [catalogLoop, specCatalog, ih, String.append_assoc]

theorem keysOf_dictInsert (k : String) (v : Function) (fs : List (String × Function)) :
    keysOf (dictInsert k v fs)
      = if k ∈ keysOf fs then keysOf fs else keysOf fs ++ [k] := by
  induction fs with
  | nil => simp [dictInsert, keysOf]
  | cons e rest ih =>
    obtain ⟨k2, v2⟩ := e
    by_cases h : k2 = k
    · subst h
      simp [dictInsert, keysOf]
    · have h2 : ¬ (k = k2) := fun hh => h hh.symm
      have hd : dictInsert k v ((k2, v2) :: rest) = (k2, v2) :: dictInsert k v rest := by
        simp [dictInsert, h]
      have hk : keysOf ((k2, v2) :: dictInsert k v rest) = k2 :: keysOf (dictInsert k v rest) :=
        rfl
      have hkc : keysOf ((k2, v2) :: rest) = k2 :: keysOf rest := rfl
      rw [hd, hk, ih, hkc]
      by_cases hmem : k ∈ keysOf rest
      · rw [if_pos hmem, if_pos (by simp [hmem])]
      · rw [if_neg hmem, if_neg (by simp [hmem, h2]), List.cons_append]

theorem nodup_keysOf_dictInsert (k : String) (v : Function) (fs : List (String × Function))
    (h : (keysOf fs).Nodup) : (keysOf (dictInsert k v fs)).Nodup := by
  rw [keysOf_dictInsert]
  split
  · exact h
  · rename_i hk
    rw [List.nodup_append]
    refine ⟨h, List.nodup_singleton k, fun a ha hak => hk ?_⟩
    rw [List.mem_singleton] at hak
    exact hak ▸ ha

theorem nodup_keysOf_applyRegisters (calls : List (PyCallable × String)) (st : LlamaChat)
    (h : (keysOf st.functions).Nodup) :
    (keysOf (applyRegisters calls st).functions).Nodup := by
  induction calls generalizing st with
  | nil => exact h
  | cons e rest ih =>
    exact ih (register_function e.1 e.2 st) (nodup_keysOf_dictInsert e.1.name _ _ h)

theorem register_functions_messages :
    ∀ (f : PyCallable) (d : String) (rest : List (PyCallable × String)) (st : LlamaChat),
      (register_functions ((f, d) :: rest) st).messages
        = [Message.mk "system" (systemContent (register_functions ((f, d) :: rest) st).functions)]
  | _, _, [], _ => rfl
  | f, d, (f2, d2) :: rest2, st =>
    register_functions_messages f2 d2 rest2 (register_function f d st)

/-! The claims. -/

/-- C1 (code divergence): the claim says every response text that is not a
JSON object with both a function and an arguments key is appended to
history and returned verbatim.  The code only catches JSONDecodeError: on
the response text null, a valid JSON document, the membership test
performed by _parse_function_call raises TypeError (None is not iterable),
which propagates out of chat, with the user message appended and no
assistant message recorded.  This theorem evaluates the model at that
failing input. -/
theorem chat_raises_on_nonobject_json :
    chat (ApiOutcome.success "null") "hi" (mkSession "k" "m" false)
      = ChatResult.exn
          { mkSession "k" "m" false with
            messages := (mkSession "k" "m" false).messages ++ [Message.mk "user" "hi"] }
          PyError.typeError := by
  rfl

/-- C2 counterexample: registering an empty batch is a call to a
registration method, and it leaves a history with prior turns entirely
unchanged instead of replacing it with the single regenerated system
message. -/
theorem empty_batch_does_not_reset_history :
    ¬ ((register_functions [] stEx).messages
        = [Message.mk "system" (systemContent (register_functions [] stEx).functions)]) := by
  decide

/-- C2 (amended): register always replaces the whole history with the
single freshly regenerated system message, and registerBatch does so for
every nonempty entry list; an empty batch leaves the session unchanged. -/
theorem registration_resets_history (st : LlamaChat) (f : PyCallable) (d : String)
    (entries : List (PyCallable × String)) (hne : entries ≠ []) :
    (register_function f d st).messages
        = [Message.mk "system" (systemContent (register_function f d st).functions)]
      ∧ (register_functions entries st).messages
        = [Message.mk "system" (systemContent (register_functions entries st).functions)] := by
  refine ⟨rfl, ?_⟩
  cases entries with
  | nil => exact absurd rfl hne
  | cons e rest =>
    obtain ⟨f2, d2⟩ := e
    exact register_functions_messages f2 d2 rest st

/-- C2 witness. -/
theorem registration_resets_history_witness :
    (register_function get_weather "d" stEx).messages
        = [Message.mk "system" (systemContent (register_function get_weather "d" stEx).functions)]
      ∧ (register_functions [(get_weather, "d")] stEx).messages
        = [Message.mk "system"
            (systemContent (register_functions [(get_weather, "d")] stEx).functions)] :=
  registration_resets_history stEx get_weather "d" [(get_weather, "d")]
    (List.cons_ne_nil _ _)

/-- C3: when the remote call fails with a caught RequestException, chat
pops the just-appended user message, leaving history exactly as before the
call, returns the fixed apology string, and raises nothing. -/
theorem chat_request_failure_rolls_back (st : LlamaChat) (m : String) :
    chat ApiOutcome.requestError m st
      = ChatResult.ok st "Sorry, I encountered an error. Please try again." := by
  simp [chat, _call_api]

/-- C4: a parsed function call whose function name is registered invokes
the registered handler with the arguments object expanded as keyword
arguments — nothing here constrains the argument names against the
recorded parameters — and the handler return value is appended as the
assistant message and returned. -/
theorem chat_dispatches_registered_function (st : LlamaChat) (m resp name r : String)
    (kvs args : List (String × JValue)) (f : Function)
    (h1 : json_loads resp = some (JValue.obj kvs))
    (h2 : kvs.find? (fun p => p.1 == "function") = some ("function", JValue.str name))
    (h3 : kvs.find? (fun p => p.1 == "arguments") = some ("arguments", JValue.obj args))
    (h4 : st.functions.find? (fun p => p.1 == name) = some (name, f))
    (h5 : f.func.impl args = Except.ok r) :
    chat (ApiOutcome.success resp) m st
      = ChatResult.ok
          { st with messages := st.messages
              ++ [Message.mk "user" m, Message.mk "assistant" r] }
          r := by
  have hcf := any_of_find _ _ _ h2
  have hca := any_of_find _ _ _ h3
  have hm := any_of_find _ _ _ h4
  simp [chat, _call_api, _parse_function_call, _execute_function, pyContains, pySubscript,
    h1, h2, h3, h4, h5, hcf, hca, hm]

/-- C4 witness. -/
theorem chat_dispatches_registered_function_witness :
    chat (ApiOutcome.success parisCall) "What is the weather in Paris?"
        (register_function get_weather "Gets the weather" (mkSession "key" "model" false))
      = ChatResult.ok
          { register_function get_weather "Gets the weather" (mkSession "key" "model" false) with
            messages :=
              (register_function get_weather "Gets the weather"
                (mkSession "key" "model" false)).messages
              ++ [Message.mk "user" "What is the weather in Paris?",
                  Message.mk "assistant" "Weather in Paris"] }
          "Weather in Paris" :=
  chat_dispatches_registered_function
    (register_function get_weather "Gets the weather" (mkSession "key" "model" false))
    "What is the weather in Paris?" parisCall "get_weather" "Weather in Paris"
    [("function", JValue.str "get_weather"),
     ("arguments", JValue.obj [("city", JValue.str "Paris")])]
    [("city", JValue.str "Paris")]
    (Function.make "get_weather" get_weather "Gets the weather")
    (by rfl) (by rfl) (by rfl) (by rfl) (by rfl)

/-- C5: a parsed function call whose function name is a string absent from
the registry makes chat append the assistant message
Error: Function not recognized. and return that literal string without
raising. -/
theorem chat_unknown_function (st : LlamaChat) (m resp name : String)
    (kvs : List (String × JValue)) (argv : JValue)
    (h1 : json_loads resp = some (JValue.obj kvs))
    (h2 : kvs.find? (fun p => p.1 == "function") = some ("function", JValue.str name))
    (h3 : kvs.find? (fun p => p.1 == "arguments") = some ("arguments", argv))
    (h4 : st.functions.any (fun p => p.1 == name) = false) :
    chat (ApiOutcome.success resp) m st
      = ChatResult.ok
          { st with messages := st.messages
              ++ [Message.mk "user" m,
                  Message.mk "assistant" "Error: Function not recognized."] }
          "Error: Function not recognized." := by
  have hcf := any_of_find _ _ _ h2
  have hca := any_of_find _ _ _ h3
  simp [chat, _call_api, _parse_function_call, _execute_function, pyContains, pySubscript,
    h1, h2, h3, h4, hcf, hca]

/-- C5 witness. -/
theorem chat_unknown_function_witness :
    chat (ApiOutcome.success parisCall) "hi" (mkSession "key" "model" false)
      = ChatResult.ok
          { mkSession "key" "model" false with
            messages := (mkSession "key" "model" false).messages
              ++ [Message.mk "user" "hi",
                  Message.mk "assistant" "Error: Function not recognized."] }
          "Error: Function not recognized." :=
  chat_unknown_function (mkSession "key" "model" false) "hi" parisCall "get_weather"
    [("function", JValue.str "get_weather"),
     ("arguments", JValue.obj [("city", JValue.str "Paris")])]
    (JValue.obj [("city", JValue.str "Paris")])
    (by rfl) (by rfl) (by rfl) (by rfl)

/-- C6: after any sequence of register calls on a fresh session, the
registry keys are free of duplicates; the system message is the fixed
preamble alone when the registry is empty and otherwise carries exactly
one catalog line per registered function, in registry (insertion) order;
and registering a name again replaces its entry without changing the key
sequence, while a new name is appended at the end. -/
theorem system_message_catalog (calls : List (PyCallable × String))
    (k mo : String) (dbg : Bool) (f : PyCallable) (d : String) :
    (keysOf (applyRegisters calls (mkSession k mo dbg)).functions).Nodup
    ∧ systemContent (applyRegisters calls (mkSession k mo dbg)).functions
        = (if (applyRegisters calls (mkSession k mo dbg)).functions.isEmpty then preamble
           else preamble ++ catalogHeader
                ++ specCatalog 1 (applyRegisters calls (mkSession k mo dbg)).functions
                ++ formatInstruction)
    ∧ keysOf (register_function f d (applyRegisters calls (mkSession k mo dbg))).functions
        = (if f.name ∈ keysOf (applyRegisters calls (mkSession k mo dbg)).functions
           then keysOf (applyRegisters calls (mkSession k mo dbg)).functions
           else keysOf (applyRegisters calls (mkSession k mo dbg)).functions ++ [f.name]) := by
  refine ⟨?_, ?_, ?_⟩
  · exact nodup_keysOf_applyRegisters calls _ (by simp [mkSession, regenSystemMessage, keysOf])
  · simp only [systemContent, catalogLoop_eq, String.empty_append]
  · exact keysOf_dictInsert f.name _ _

/-- C7: when the dispatched handler itself raises, the exception
propagates uncaught out of chat, and history is left with the user message
appended but no assistant reply. -/
theorem chat_handler_exception_propagates (st : LlamaChat) (m resp name : String)
    (kvs args : List (String × JValue)) (f : Function) (e : PyError)
    (h1 : json_loads resp = some (JValue.obj kvs))
    (h2 : kvs.find? (fun p => p.1 == "function") = some ("function", JValue.str name))
    (h3 : kvs.find? (fun p => p.1 == "arguments") = some ("arguments", JValue.obj args))
    (h4 : st.functions.find? (fun p => p.1 == name) = some (name, f))
    (h5 : f.func.impl args = Except.error e) :
    chat (ApiOutcome.success resp) m st
      = ChatResult.exn { st with messages := st.messages ++ [Message.mk "user" m] } e := by
  have hcf := any_of_find _ _ _ h2
  have hca := any_of_find _ _ _ h3
  have hm := any_of_find _ _ _ h4
  simp [chat, _call_api, _parse_function_call, _execute_function, pyContains, pySubscript,
    h1, h2, h3, h4, h5, hcf, hca, hm]

/-- C7 witness. -/
theorem chat_handler_exception_propagates_witness :
    chat (ApiOutcome.success boomCall) "hi"
        (register_function boom "Always fails" (mkSession "k" "m" false))
      = ChatResult.exn
          { register_function boom "Always fails" (mkSession "k" "m" false) with
            messages :=
              (register_function boom "Always fails" (mkSession "k" "m" false)).messages
              ++ [Message.mk "user" "hi"] }
          (PyError.exception "boom") :=
  chat_handler_exception_propagates
    (register_function boom "Always fails" (mkSession "k" "m" false))
    "hi" boomCall "boom"
    [("function", JValue.str "boom"), ("arguments", JValue.obj [])]
    [] (Function.make "boom" boom "Always fails") (PyError.exception "boom")
    (by rfl) (by rfl) (by rfl) (by rfl) (by rfl)

/-- C9: whenever a chat call with a successful remote reply returns
normally, the history has grown by exactly the user message followed by
one assistant message, and the returned string is the content of that
final assistant message. -/
theorem chat_normal_completion_appends_two (st : LlamaChat) (m resp : String)
    (st2 : LlamaChat) (r : String)
    (h : chat (ApiOutcome.success resp) m st = ChatResult.ok st2 r) :
    st2.messages = st.messages ++ [Message.mk "user" m, Message.mk "assistant" r] := by
  simp only [chat, _call_api] at h
  split at h
  · exact ChatResult.noConfusion h
  · split at h
    · exact ChatResult.noConfusion h
    · cases h
      simp
  · cases h
    simp

/-- C9 witness. -/
theorem chat_normal_completion_appends_two_witness :
    ({ mkSession "k" "m" false with
        messages := (mkSession "k" "m" false).messages
          ++ [Message.mk "user" "hi", Message.mk "assistant" "hello"] } : LlamaChat).messages
      = (mkSession "k" "m" false).messages
        ++ [Message.mk "user" "hi", Message.mk "assistant" "hello"] :=
  chat_normal_completion_appends_two (mkSession "k" "m" false) "hi" "hello"
    { mkSession "k" "m" false with
      messages := (mkSession "k" "m" false).messages
        ++ [Message.mk "user" "hi", Message.mk "assistant" "hello"] }
    "hello" (by rfl)

/-- C10: whatever the outcome of a chat call — normal return, rolled-back
failure, or an uncaught exception — the credential, model identifier,
debug flag and function registry of the resulting session state are those
of the initial state; only the message history changes. -/
theorem chat_preserves_frame (outcome : ApiOutcome) (m : String) (st : LlamaChat) :
    (ChatResult.stateOf (chat outcome m st)).api_key = st.api_key
    ∧ (ChatResult.stateOf (chat outcome m st)).model = st.model
    ∧ (ChatResult.stateOf (chat outcome m st)).debug = st.debug
    ∧ (ChatResult.stateOf (chat outcome m st)).functions = st.functions := by
  cases outcome with
  | requestError => exact ⟨rfl, rfl, rfl, rfl⟩
  | malformedBody e => exact ⟨rfl, rfl, rfl, rfl⟩
  | success resp =>
    cases hp : _parse_function_call resp with
    | error e => simp [chat, _call_api, hp, ChatResult.stateOf]
    | ok o =>
      cases o with
      | none => simp [chat, _call_api, hp, ChatResult.stateOf]
      | some fc =>
        cases he : _execute_function st.functions fc with
        | error e => simp [chat, _call_api, hp, he, ChatResult.stateOf]
        | ok res => simp [chat, _call_api, hp, he, ChatResult.stateOf]

/-- C8: registerBatch (register_functions) produces the same final session
state as folding register over the handler/description pairs in order; in
this model register is a total function, so no call in the sequence can
fail and leave a partial registration behind. -/
theorem register_functions_eq_spec :
    ∀ (entries : List (PyCallable × String)) (st : LlamaChat),
      register_functions entries st = registerBatch_spec entries st
  | [], _ => rfl
  | (f, d) :: rest, st => register_functions_eq_spec rest (register_function f d st)

end LlamaChatSdk
